import Mathlib

/-!
Shallow embedding of the catproj asset-inventory backend: the InsightVM
sync/reconciliation engine (`src/backend/main.py`,
`sync_insightvm_vulnerabilities` / `sync_insightvm_assets`), the team CRUD
deletion guard (`src/backend/crud.py`, `delete_team`) and the review
compliance calculator (`src/backend/main.py`, `get_assets_grouped_by_team`,
`get_overdue_assets`, `get_team_review_compliance`).

Timestamps are modelled as integers (`datetime.now()` becomes an explicit
`now` parameter of each run; day differences are integer differences).
External HTTP responses are inputs: a sync run receives the decoded
response values the Python code would read from the client.  Per-record
exceptions raised inside the `try`/`except` bodies are modelled by an
optional fault (`Option String`, the exception message) attached to each
record.  Python `round(x, 2)` is omitted: every rate examined here is exact
at two decimals.
-/

namespace CatProj

/-- Python `str.lower()` (character-wise lower-casing). -/
def pyLower (s : String) : String := ⟨s.data.map Char.toLower⟩

/-- Python slicing `s[:n]`. -/
def pyTake (s : String) (n : Nat) : String := ⟨s.data.take n⟩

/-! ### Local data model (`src/backend/models.py`) -/

structure Team where
  id : Nat
  name : String
  parent_team_id : Option Nat
  team_type : String
deriving Repr, DecidableEq

structure User where
  id : Nat
  team_id : Option Nat
  is_admin : Bool
deriving Repr, DecidableEq

structure Asset where
  id : Nat
  name : String
  ip_address : String
  os_version : String
  public_facing : Bool
  team_id : Nat
  owner_id : Option Nat
  last_reviewed_date : Option Int
  environment : String
  criticality : String
  updated_at : Option Int
deriving Repr, DecidableEq

structure Vulnerability where
  id : Nat
  asset_id : Nat
  rapid7_vuln_id : String
  title : String
  description : String
  severity : String
  cvss_score : String
  status : String
  discovered_date : Int
  last_seen : Int
deriving Repr, DecidableEq

/-- The relational store: row lists plus autoincrement counters. -/
structure DB where
  teams : List Team
  users : List User
  assets : List Asset
  vulns : List Vulnerability
  next_asset_id : Nat
  next_vuln_id : Nat
deriving Repr, DecidableEq

/-! ### External scanner records as read by the sync endpoints.
`none` models a missing (or falsy) JSON field, matching `dict.get`. -/

structure ExtAsset where
  id : Option Nat
  ip : Option String
  hostName : Option String
  os : Option String
deriving Repr, DecidableEq

structure ExtVuln where
  id : Option String
  title : Option String
  descriptionText : Option String
  severity : Option String
  cvssV3Score : Option Nat
deriving Repr, DecidableEq

/-- Result of `InsightVMClient.test_connection`. -/
structure ConnectionTest where
  status : String
  message : String
deriving Repr, DecidableEq

structure SyncReport where
  message : String
  synced_count : Nat
  error_count : Nat
  errors : List String
deriving Repr, DecidableEq

/-- Mutable state threaded through a sync run: the store plus counters. -/
structure SyncState where
  db : DB
  synced_count : Nat
  error_count : Nat
  errors : List String
deriving Repr, DecidableEq

/-! ### Store lookups (the SQLAlchemy `query(...).filter(...).first()` calls) -/

def findAssetByIP (db : DB) (ip : String) : Option Asset :=
  db.assets.find? (fun a => a.ip_address == ip)

def findVulnerability (db : DB) (assetId : Nat) (vid : String) : Option Vulnerability :=
  db.vulns.find? (fun v => v.asset_id == assetId && v.rapid7_vuln_id == vid)

def firstTeam (db : DB) : Option Team :=
  db.teams.head?

/-- Mutate the first row matching `p` in place (SQLAlchemy identity-map
update of the row returned by `.first()`). -/
def updateFirstBy {α : Type} (p : α → Bool) (f : α → α) : List α → List α
  | [] => []
  | x :: xs => if p x then f x :: xs else x :: updateFirstBy p f xs

/-! ### Asset sync (`sync_insightvm_assets`, main.py lines 2021-2099) -/

/-- The `models.Asset(...)` constructed by both sync endpoints when no
local asset matches the external record's IP (main.py lines 1942-1949 and
2066-2073): hostname or synthesized name, OS or `"Unknown"`, not
public-facing, fallback team, acting user as owner; the remaining columns
take their model defaults. -/
def createdAssetRow (a : ExtAsset) (ip : String) (teamId userId rowId : Nat) : Asset :=
  { id := rowId
    name := a.hostName.getD ("Asset_" ++ ip)
    ip_address := ip
    os_version := a.os.getD "Unknown"
    public_facing := false
    team_id := teamId
    owner_id := some userId
    last_reviewed_date := none
    environment := "dev"
    criticality := "medium"
    updated_at := none }

/-- The in-place update applied by `sync_insightvm_assets` to a matched
local asset (main.py lines 2078-2080): name, OS and the `updated_at`
stamp. -/
def updatedAssetRow (a : ExtAsset) (now : Int) (e : Asset) : Asset :=
  { e with
      name := a.hostName.getD e.name
      os_version := a.os.getD e.os_version
      updated_at := some now }

/-- Body of the per-asset loop (main.py lines 2053-2083).  A record without
an IP is skipped with `continue`; otherwise match by IP and create or
update. -/
def syncOneAsset (defaultTeamId userId : Nat) (now : Int)
    (st : SyncState) (a : ExtAsset) : SyncState :=
  match a.ip with
  | none => st
  | some ip =>
    match findAssetByIP st.db ip with
    | none =>
      { st with
          db := { st.db with
                    assets := st.db.assets ++
                      [createdAssetRow a ip defaultTeamId userId st.db.next_asset_id]
                    next_asset_id := st.db.next_asset_id + 1 }
          synced_count := st.synced_count + 1 }
    | some _found =>
      { st with
          db := { st.db with
                    assets := updateFirstBy (fun e => e.ip_address == ip)
                      (updatedAssetRow a now) st.db.assets }
          synced_count := st.synced_count + 1 }

/-- The per-asset loop of the asset sync. -/
def syncAssetsLoop (defaultTeamId userId : Nat) (now : Int)
    (st : SyncState) (assets : List ExtAsset) : SyncState :=
  assets.foldl (syncOneAsset defaultTeamId userId now) st

/-- `sync_insightvm_assets` with `sync_all = true` (admin check passed).
The asset listing response is an input; an `{"error": ...}` response yields
an empty `resources` list (the code reads `.get("resources", [])` without
checking the error key).  Returns the resulting store and either the report
or the `HTTPException` detail. -/
def sync_insightvm_assets (assetsResponse : Except String (List ExtAsset))
    (userId : Nat) (now : Int) (db : DB) : DB × Except String SyncReport :=
  let assets := match assetsResponse with
    | .error _ => []
    | .ok l => l
  match firstTeam db with
  | none => (db, .error "No default team found")
  | some defaultTeam =>
    let final := syncAssetsLoop defaultTeam.id userId now
      { db := db, synced_count := 0, error_count := 0, errors := [] } assets
    (final.db,
     .ok { message := "Asset sync completed"
           synced_count := final.synced_count
           error_count := final.error_count
           errors := final.errors.take 10 })

/-! ### Vulnerability sync (`sync_insightvm_vulnerabilities`, main.py
lines 1885-2019) -/

/-- The `models.Vulnerability(...)` constructed by the vulnerability sync
for an unmatched external vulnerability (main.py lines 1976-1986): severity
lower-cased, description truncated to 1000 chars, status `"open"`,
discovered/last_seen stamped now. -/
def createdVulnRow (v : ExtVuln) (vid : String) (localAssetId : Nat)
    (now : Int) (rowId : Nat) : Vulnerability :=
  { id := rowId
    asset_id := localAssetId
    rapid7_vuln_id := vid
    title := v.title.getD "Unknown Vulnerability"
    description := pyTake (v.descriptionText.getD "") 1000
    severity := pyLower (v.severity.getD "Unknown")
    cvss_score := toString (v.cvssV3Score.getD 0)
    status := "open"
    discovered_date := now
    last_seen := now }

/-- The in-place update applied by the vulnerability sync to a matched
local vulnerability (main.py lines 1991-1995): title, description,
severity, cvss_score and last_seen are rewritten; status and
discovered_date are not touched. -/
def updatedVulnRow (v : ExtVuln) (now : Int) (e : Vulnerability) : Vulnerability :=
  { e with
      title := v.title.getD e.title
      description := pyTake (v.descriptionText.getD e.description) 1000
      severity := pyLower (v.severity.getD e.severity)
      cvss_score := toString (v.cvssV3Score.getD 0)
      last_seen := now }

/-- Body of the per-vulnerability loop (main.py lines 1962-2001), when the
body does not raise.  A record without an id is skipped with `continue`;
otherwise match by `(asset_id, rapid7_vuln_id)` and create or update. -/
def syncOneVuln (localAssetId : Nat) (now : Int)
    (st : SyncState) (v : ExtVuln) : SyncState :=
  match v.id with
  | none => st
  | some vid =>
    match findVulnerability st.db localAssetId vid with
    | none =>
      { st with
          db := { st.db with
                    vulns := st.db.vulns ++
                      [createdVulnRow v vid localAssetId now st.db.next_vuln_id]
                    next_vuln_id := st.db.next_vuln_id + 1 }
          synced_count := st.synced_count + 1 }
    | some _found =>
      { st with
          db := { st.db with
                    vulns := updateFirstBy
                      (fun e => e.asset_id == localAssetId && e.rapid7_vuln_id == vid)
                      (updatedVulnRow v now) st.db.vulns }
          synced_count := st.synced_count + 1 }

/-- One iteration of the vulnerability loop under the `try`/`except`: a
record whose processing raises (fault `some msg`) only increments
`error_count` and appends the message; otherwise `syncOneVuln` runs. -/
def syncVulnStep (localAssetId : Nat) (now : Int)
    (st : SyncState) (rec : ExtVuln × Option String) : SyncState :=
  match rec.2 with
  | some msg =>
    { st with
        error_count := st.error_count + 1
        errors := st.errors ++
          ["Error syncing vulnerability " ++ (rec.1.id.getD "unknown") ++ ": " ++ msg] }
  | none => syncOneVuln localAssetId now st rec.1

def syncVulnsLoop (localAssetId : Nat) (now : Int)
    (st : SyncState) (vulns : List (ExtVuln × Option String)) : SyncState :=
  vulns.foldl (syncVulnStep localAssetId now) st

/-- Body of the per-asset loop of the vulnerability sync (main.py lines
1923-2008): skip records missing id or ip; find or auto-create the local
asset (skipping when no default team exists); fetch the asset's
vulnerability listing (an error response counts one error and skips); then
run the vulnerability loop. -/
def syncVulnAssetStep
    (vulnsResponse : Nat → Except String (List (ExtVuln × Option String)))
    (userId : Nat) (now : Int) (st : SyncState) (a : ExtAsset) : SyncState :=
  match a.id, a.ip with
  | some aid, some ip =>
    let found := findAssetByIP st.db ip
    let dbAndLocal : DB × Option Nat :=
      match found with
      | some la => (st.db, some la.id)
      | none =>
        match firstTeam st.db with
        | none => (st.db, none)
        | some defaultTeam =>
          ({ st.db with
               assets := st.db.assets ++
                 [createdAssetRow a ip defaultTeam.id userId st.db.next_asset_id]
               next_asset_id := st.db.next_asset_id + 1 },
           some st.db.next_asset_id)
    match dbAndLocal.2 with
    | none => { st with db := dbAndLocal.1 }
    | some localId =>
      match vulnsResponse aid with
      | .error e =>
        { st with
            db := dbAndLocal.1
            error_count := st.error_count + 1
            errors := st.errors ++
              ["Failed to get vulnerabilities for asset " ++ ip ++ ": " ++ e] }
      | .ok vulns =>
        syncVulnsLoop localId now { st with db := dbAndLocal.1 } vulns
  | _, _ => st

/-- `sync_insightvm_vulnerabilities` with `sync_all = true` (admin check
passed).  The connection test result, the asset listing response and the
per-asset vulnerability listing responses are inputs.  Returns the
resulting store and either the report or the `HTTPException` detail:
a failed connection test aborts before any store access. -/
def sync_insightvm_vulnerabilities (connectionTest : ConnectionTest)
    (assetsResponse : Except String (List ExtAsset))
    (vulnsResponse : Nat → Except String (List (ExtVuln × Option String)))
    (userId : Nat) (now : Int) (db : DB) : DB × Except String SyncReport :=
  if connectionTest.status ≠ "connected" then
    (db, .error ("InsightVM connection failed: " ++ connectionTest.message))
  else
    match assetsResponse with
    | .error e => (db, .error ("Failed to get assets from InsightVM: " ++ e))
    | .ok assets =>
      let final := assets.foldl (syncVulnAssetStep vulnsResponse userId now)
        { db := db, synced_count := 0, error_count := 0, errors := [] }
      (final.db,
       .ok { message := "Vulnerability sync completed"
             synced_count := final.synced_count
             error_count := final.error_count
             errors := final.errors.take 10 })

/-! ### Team deletion guard (`crud.delete_team`, crud.py lines 49-74) -/

def get_sub_teams (db : DB) (parent_team_id : Nat) : List Team :=
  db.teams.filter (fun t => t.parent_team_id == some parent_team_id)

def teamAssetCount (db : DB) (team_id : Nat) : Nat :=
  (db.assets.filter (fun a => a.team_id == team_id)).length

def teamUserCount (db : DB) (team_id : Nat) : Nat :=
  (db.users.filter (fun u => u.team_id == some team_id)).length

/-- `crud.delete_team`.  `commitOutcome = some e` models the database
raising `e` inside the final `db.delete`/`db.commit` (the code rolls back
and re-raises as `ValueError`).  The returned store is the state after the
call: unchanged on every error path.  The second component is the raised
message, or the returned team row (`none` when no such team). -/
def delete_team (commitOutcome : Option String) (db : DB) (team_id : Nat) :
    DB × Except String (Option Team) :=
  match db.teams.find? (fun t => t.id == team_id) with
  | none => (db, .ok none)
  | some db_team =>
    let sub_teams := get_sub_teams db team_id
    if sub_teams ≠ [] then
      (db, .error ("Cannot delete team with sub-teams: " ++
        String.intercalate ", " (sub_teams.map Team.name) ++
        ". Delete sub-teams first."))
    else if teamAssetCount db team_id > 0 then
      (db, .error ("Cannot delete team with " ++ toString (teamAssetCount db team_id) ++
        " assets. Reassign assets first."))
    else if teamUserCount db team_id > 0 then
      (db, .error ("Cannot delete team with " ++ toString (teamUserCount db team_id) ++
        " users assigned. Reassign users first."))
    else
      match commitOutcome with
      | some e => (db, .error ("Database error during deletion: " ++ e))
      | none =>
        ({ db with teams := db.teams.filter (fun t => !(t.id == team_id)) },
         .ok (some db_team))

/-! ### Review compliance calculator (main.py lines 255-314, 1063-1161) -/

/-- Per-asset review classification from `get_assets_grouped_by_team`
(main.py lines 267-284): fixed 60/45 day cuts, `never_reviewed` on null.
`now` and the review timestamp are measured in days. -/
def classifyReview (now : Int) (last_reviewed_date : Option Int) : String :=
  match last_reviewed_date with
  | none => "never_reviewed"
  | some d =>
    let days_since := now - d
    if days_since > 60 then "overdue"
    else if days_since > 45 then "warning"
    else "current"

/-- The overdue predicate of `get_overdue_assets` / `get_team_review_compliance`
(main.py lines 1074-1078 and 1122-1129): null review date, or reviewed
before the cutoff. -/
def isOverdueForReview (cutoff : Int) (last_reviewed_date : Option Int) : Bool :=
  match last_reviewed_date with
  | none => true
  | some d => d < cutoff

structure OverdueReport where
  overdue_count : Nat
  threshold_days : Int
  assets : List Asset
deriving Repr, DecidableEq

/-- `get_overdue_assets` (main.py lines 1063-1101): filter by the overdue
predicate, restricted to the caller's team unless admin. -/
def get_overdue_assets (days_threshold : Int) (now : Int)
    (is_admin : Bool) (user_team_id : Option Nat) (db : DB) : OverdueReport :=
  let cutoff := now - days_threshold
  let base := db.assets.filter (fun a => isOverdueForReview cutoff a.last_reviewed_date)
  let overdue_assets :=
    if is_admin then base
    else base.filter (fun a => some a.team_id == user_team_id)
  { overdue_count := overdue_assets.length
    threshold_days := days_threshold
    assets := overdue_assets }

structure TeamCompliance where
  team_id : Nat
  team_name : String
  total_assets : Nat
  overdue_assets : Nat
  compliance_rate : ℚ
  team_status : String
deriving Repr, DecidableEq

/-- Per-team row of `get_team_review_compliance` (main.py lines 1136-1148):
overdue counts null-or-stale assets; rate is `(total - overdue)/total*100`,
100 when the team has no assets; status flagged below 80. -/
def teamComplianceEntry (cutoff : Int) (db : DB) (team : Team) : TeamCompliance :=
  let team_assets := db.assets.filter (fun a => a.team_id == team.id)
  let total_assets := team_assets.length
  let overdue_assets :=
    (team_assets.filter (fun a => isOverdueForReview cutoff a.last_reviewed_date)).length
  let compliance_rate : ℚ :=
    if total_assets > 0 then
      ((total_assets : ℚ) - (overdue_assets : ℚ)) / (total_assets : ℚ) * 100
    else 100
  { team_id := team.id
    team_name := team.name
    total_assets := total_assets
    overdue_assets := overdue_assets
    compliance_rate := compliance_rate
    team_status := if compliance_rate ≥ 80 then "compliant" else "flagged" }

structure ComplianceReport where
  threshold_days : Int
  total_teams : Nat
  flagged_teams_count : Nat
  teams : List TeamCompliance
  flagged_teams : List TeamCompliance
deriving Repr, DecidableEq

/-- `get_team_review_compliance` (main.py lines 1103-1161). -/
def get_team_review_compliance (days_threshold : Int) (now : Int)
    (db : DB) : ComplianceReport :=
  let cutoff := now - days_threshold
  let compliance_data := db.teams.map (teamComplianceEntry cutoff db)
  let flagged_teams := compliance_data.filter (fun t => decide (t.compliance_rate < 80))
  { threshold_days := days_threshold
    total_teams := compliance_data.length
    flagged_teams_count := flagged_teams.length
    teams := compliance_data
    flagged_teams := flagged_teams }

/-- Row-count of local assets carrying a given IP address. -/
def countAssetsWithIP (db : DB) (ip : String) : Nat :=
  (db.assets.filter (fun a => a.ip_address == ip)).length

/-- Row-count of local vulnerabilities for an (asset id, external vuln id)
pair. -/
def countVulnRows (db : DB) (assetId : Nat) (vid : String) : Nat :=
  (db.vulns.filter (fun v => v.asset_id == assetId && v.rapid7_vuln_id == vid)).length

/-! ### List helpers shared by the sync proofs -/

theorem filter_eq_nil_of_find?_none {α : Type} {p : α → Bool} {l : List α}
    (h : l.find? p = none) : l.filter p = [] := by
  rw [List.filter_eq_nil_iff]
  rw [List.find?_eq_none] at h
  intro a ha
  simp [h a ha]

theorem find?_append_left_none {α : Type} {p : α → Bool} {l1 l2 : List α}
    (h : l1.find? p = none) : (l1 ++ l2).find? p = l2.find? p := by
  rw [List.find?_append, h, Option.none_or]

theorem updateFirstBy_append_left_none {α : Type} {p : α → Bool} (f : α → α)
    {l1 : List α} (l2 : List α) (h : l1.find? p = none) :
    updateFirstBy p f (l1 ++ l2) = l1 ++ updateFirstBy p f l2 := by
  induction l1 with
  | nil => simp
  | cons x xs ih =>
    rw [List.find?_cons] at h
    rcases hx : p x with _ | _
    · simp only [hx] at h
      simp only [List.cons_append, updateFirstBy, hx]
      simp [ih h]
    · simp [hx] at h

theorem length_updateFirstBy {α : Type} (p : α → Bool) (f : α → α) (l : List α) :
    (updateFirstBy p f l).length = l.length := by
  induction l with
  | nil => rfl
  | cons x xs ih =>
    by_cases hx : p x
    · simp [updateFirstBy, hx]
    · simp [updateFirstBy, hx, ih]

/-! ### Claim theorems -/

/-- C7: an external asset record lacking an IP address is skipped by the
asset sync: the state (store, synced_count, error_count, errors) is left
untouched, and a batch containing such a record processes exactly like the
batch with the record removed — the remaining records are still handled. -/
theorem C7_asset_sync_skips_ip_less_record
    (dt uid : Nat) (now : Int) (a : ExtAsset) (hip : a.ip = none)
    (st : SyncState) (pre post : List ExtAsset) :
    syncOneAsset dt uid now st a = st ∧
    syncAssetsLoop dt uid now st (pre ++ a :: post) =
      syncAssetsLoop dt uid now st (pre ++ post) := by
  have hskip : ∀ s : SyncState, syncOneAsset dt uid now s a = s := by
    intro s
    unfold syncOneAsset
    rw [hip]
  refine ⟨hskip st, ?_⟩
  unfold syncAssetsLoop
  rw [List.foldl_append, List.foldl_append, List.foldl_cons, hskip]

/-- C7 witness: a concrete record without an IP, surrounded by records
with IPs, is skipped while its neighbours are processed. -/
theorem C7_asset_sync_skips_ip_less_record_witness :
    syncOneAsset 1 2 0
      { db := { teams := [{ id := 1, name := "t", parent_team_id := none, team_type := "main" }],
                users := [], assets := [], vulns := [], next_asset_id := 1, next_vuln_id := 1 },
        synced_count := 0, error_count := 0, errors := [] }
      { id := some 9, ip := none, hostName := some "h", os := none } =
      { db := { teams := [{ id := 1, name := "t", parent_team_id := none, team_type := "main" }],
                users := [], assets := [], vulns := [], next_asset_id := 1, next_vuln_id := 1 },
        synced_count := 0, error_count := 0, errors := [] } ∧
    syncAssetsLoop 1 2 0
      { db := { teams := [{ id := 1, name := "t", parent_team_id := none, team_type := "main" }],
                users := [], assets := [], vulns := [], next_asset_id := 1, next_vuln_id := 1 },
        synced_count := 0, error_count := 0, errors := [] }
      ([{ id := some 8, ip := some "10.0.0.1", hostName := none, os := none }] ++
        { id := some 9, ip := none, hostName := some "h", os := none } ::
        [{ id := some 10, ip := some "10.0.0.2", hostName := none, os := none }]) =
    syncAssetsLoop 1 2 0
      { db := { teams := [{ id := 1, name := "t", parent_team_id := none, team_type := "main" }],
                users := [], assets := [], vulns := [], next_asset_id := 1, next_vuln_id := 1 },
        synced_count := 0, error_count := 0, errors := [] }
      ([{ id := some 8, ip := some "10.0.0.1", hostName := none, os := none }] ++
        [{ id := some 10, ip := some "10.0.0.2", hostName := none, os := none }]) :=
  C7_asset_sync_skips_ip_less_record 1 2 0
    { id := some 9, ip := none, hostName := some "h", os := none } rfl
    { db := { teams := [{ id := 1, name := "t", parent_team_id := none, team_type := "main" }],
              users := [], assets := [], vulns := [], next_asset_id := 1, next_vuln_id := 1 },
      synced_count := 0, error_count := 0, errors := [] }
    [{ id := some 8, ip := some "10.0.0.1", hostName := none, os := none }]
    [{ id := some 10, ip := some "10.0.0.2", hostName := none, os := none }]

/-- C6 counterexample: the claim says the asset-sync update path changes
only the descriptive fields name and OS, but at a concrete matched asset
whose `updated_at` is null the sync also rewrites `updated_at` (main.py
line 2080), a field that is neither name nor OS. -/
theorem C6_only_name_os_counterexample :
    (syncOneAsset 1 2 5
      { db := { teams := [{ id := 1, name := "t", parent_team_id := none, team_type := "main" }],
                users := [],
                assets := [{ id := 1, name := "srv", ip_address := "10.0.0.1",
                             os_version := "linux", public_facing := false, team_id := 1,
                             owner_id := none, last_reviewed_date := none,
                             environment := "dev", criticality := "medium",
                             updated_at := none }],
                vulns := [], next_asset_id := 2, next_vuln_id := 1 },
        synced_count := 0, error_count := 0, errors := [] }
      { id := some 9, ip := some "10.0.0.1", hostName := none, os := none
        }).db.assets.map Asset.updated_at = [some 5] ∧
    ({ id := 1, name := "srv", ip_address := "10.0.0.1", os_version := "linux",
       public_facing := false, team_id := 1, owner_id := none,
       last_reviewed_date := none, environment := "dev", criticality := "medium",
       updated_at := none } : Asset).updated_at = none := by
  decide

/-- C6 (amended): on the asset-sync update path the matched asset's name,
OS and `updated_at` stamp are rewritten; its team_id, owner_id and
criticality — and every other field — are unchanged, and no other row of
the store is touched beyond the first asset matching the IP. -/
theorem C6_update_path_frame
    (dt uid : Nat) (now : Int) (st : SyncState)
    (a : ExtAsset) (ip : String) (hip : a.ip = some ip)
    (found : Asset) (hfound : findAssetByIP st.db ip = some found) :
    (syncOneAsset dt uid now st a).db.assets =
      updateFirstBy (fun e => e.ip_address == ip) (updatedAssetRow a now) st.db.assets ∧
    (syncOneAsset dt uid now st a).db.teams = st.db.teams ∧
    (syncOneAsset dt uid now st a).db.users = st.db.users ∧
    (syncOneAsset dt uid now st a).db.vulns = st.db.vulns ∧
    (syncOneAsset dt uid now st a).db.assets.length = st.db.assets.length ∧
    (∀ e : Asset,
      (updatedAssetRow a now e).team_id = e.team_id ∧
      (updatedAssetRow a now e).owner_id = e.owner_id ∧
      (updatedAssetRow a now e).criticality = e.criticality ∧
      (updatedAssetRow a now e).id = e.id ∧
      (updatedAssetRow a now e).ip_address = e.ip_address ∧
      (updatedAssetRow a now e).public_facing = e.public_facing ∧
      (updatedAssetRow a now e).last_reviewed_date = e.last_reviewed_date ∧
      (updatedAssetRow a now e).environment = e.environment ∧
      (updatedAssetRow a now e).name = a.hostName.getD e.name ∧
      (updatedAssetRow a now e).os_version = a.os.getD e.os_version ∧
      (updatedAssetRow a now e).updated_at = some now) := by
  have hstep : syncOneAsset dt uid now st a =
      { st with
          db := { st.db with
                    assets := updateFirstBy (fun e => e.ip_address == ip)
                      (updatedAssetRow a now) st.db.assets }
          synced_count := st.synced_count + 1 } := by
    unfold syncOneAsset
    rw [hip]
    dsimp only
    rw [hfound]
  rw [hstep]
  refine ⟨rfl, rfl, rfl, rfl, length_updateFirstBy _ _ _, ?_⟩
  intro e
  simp [updatedAssetRow]

/-- C6 witness: the amended frame property at a concrete matched asset. -/
theorem C6_update_path_frame_witness :
    (syncOneAsset 1 2 5
      { db := { teams := [], users := [],
                assets := [{ id := 1, name := "srv", ip_address := "10.0.0.1",
                             os_version := "linux", public_facing := false, team_id := 1,
                             owner_id := none, last_reviewed_date := none,
                             environment := "dev", criticality := "medium",
                             updated_at := none }],
                vulns := [], next_asset_id := 2, next_vuln_id := 1 },
        synced_count := 0, error_count := 0, errors := [] }
      { id := some 9, ip := some "10.0.0.1", hostName := some "renamed", os := some "win"
        }).db.assets =
      updateFirstBy (fun e => e.ip_address == "10.0.0.1")
        (updatedAssetRow
          { id := some 9, ip := some "10.0.0.1", hostName := some "renamed", os := some "win" } 5)
        [{ id := 1, name := "srv", ip_address := "10.0.0.1",
           os_version := "linux", public_facing := false, team_id := 1,
           owner_id := none, last_reviewed_date := none,
           environment := "dev", criticality := "medium", updated_at := none }] ∧
    (updatedAssetRow
      { id := some 9, ip := some "10.0.0.1", hostName := some "renamed", os := some "win" } 5
      { id := 1, name := "srv", ip_address := "10.0.0.1",
        os_version := "linux", public_facing := false, team_id := 1,
        owner_id := none, last_reviewed_date := none,
        environment := "dev", criticality := "medium", updated_at := none }).team_id = 1 := by
  have h := C6_update_path_frame 1 2 5
    { db := { teams := [], users := [],
              assets := [{ id := 1, name := "srv", ip_address := "10.0.0.1",
                           os_version := "linux", public_facing := false, team_id := 1,
                           owner_id := none, last_reviewed_date := none,
                           environment := "dev", criticality := "medium",
                           updated_at := none }],
              vulns := [], next_asset_id := 2, next_vuln_id := 1 },
      synced_count := 0, error_count := 0, errors := [] }
    { id := some 9, ip := some "10.0.0.1", hostName := some "renamed", os := some "win" }
    "10.0.0.1" rfl
    { id := 1, name := "srv", ip_address := "10.0.0.1",
      os_version := "linux", public_facing := false, team_id := 1,
      owner_id := none, last_reviewed_date := none,
      environment := "dev", criticality := "medium", updated_at := none }
    (by decide)
  refine ⟨h.1, ?_⟩
  have h2 := (h.2.2.2.2.2
    { id := 1, name := "srv", ip_address := "10.0.0.1",
      os_version := "linux", public_facing := false, team_id := 1,
      owner_id := none, last_reviewed_date := none,
      environment := "dev", criticality := "medium", updated_at := none }).1
  rw [h2]

/-- C2: for an external record with an IP not previously known locally
(and a default team present), the asset sync creates exactly one local
asset with that IP, and a second run with the same input creates zero
additional assets: it matches by IP, takes the update path, and leaves the
row count unchanged. -/
theorem sync_assets_singleton_create_run
    (db : DB) (a : ExtAsset) (ip : String) (uid : Nat) (t : Int)
    (hip : a.ip = some ip)
    (hnew : findAssetByIP db ip = none)
    (dt : Team) (hteam : firstTeam db = some dt) :
    sync_insightvm_assets (.ok [a]) uid t db =
      ({ db with
           assets := db.assets ++ [createdAssetRow a ip dt.id uid db.next_asset_id]
           next_asset_id := db.next_asset_id + 1 },
       .ok { message := "Asset sync completed", synced_count := 1,
             error_count := 0, errors := [] }) := by
  unfold sync_insightvm_assets
  dsimp only
  rw [hteam]
  dsimp only
  unfold syncAssetsLoop
  rw [List.foldl_cons, List.foldl_nil]
  unfold syncOneAsset
  rw [hip]
  dsimp only
  rw [hnew]
  rfl

theorem sync_assets_singleton_update_run
    (db : DB) (a : ExtAsset) (ip : String) (uid : Nat) (t : Int)
    (hip : a.ip = some ip)
    (found : Asset) (hfound : findAssetByIP db ip = some found)
    (dt : Team) (hteam : firstTeam db = some dt) :
    sync_insightvm_assets (.ok [a]) uid t db =
      ({ db with
           assets := updateFirstBy (fun e => e.ip_address == ip)
             (updatedAssetRow a t) db.assets },
       .ok { message := "Asset sync completed", synced_count := 1,
             error_count := 0, errors := [] }) := by
  unfold sync_insightvm_assets
  dsimp only
  rw [hteam]
  dsimp only
  unfold syncAssetsLoop
  rw [List.foldl_cons, List.foldl_nil]
  unfold syncOneAsset
  rw [hip]
  dsimp only
  rw [hfound]
  rfl

theorem C2_asset_sync_idempotent
    (db0 : DB) (a : ExtAsset) (ip : String) (uid : Nat) (t1 t2 : Int)
    (hip : a.ip = some ip)
    (hnew : findAssetByIP db0 ip = none)
    (dt : Team) (hteam : firstTeam db0 = some dt) :
    countAssetsWithIP (sync_insightvm_assets (.ok [a]) uid t1 db0).1 ip = 1 ∧
    countAssetsWithIP
      (sync_insightvm_assets (.ok [a]) uid t2
        (sync_insightvm_assets (.ok [a]) uid t1 db0).1).1 ip = 1 ∧
    (sync_insightvm_assets (.ok [a]) uid t2
        (sync_insightvm_assets (.ok [a]) uid t1 db0).1).1.assets.length =
      (sync_insightvm_assets (.ok [a]) uid t1 db0).1.assets.length := by
  have hrun1 := sync_assets_singleton_create_run db0 a ip uid t1 hip hnew dt hteam
  have hfilter0 : db0.assets.filter (fun e => e.ip_address == ip) = [] :=
    filter_eq_nil_of_find?_none hnew
  have hprow : ((createdAssetRow a ip dt.id uid db0.next_asset_id).ip_address == ip) = true := by
    simp [createdAssetRow]
  have hteam1 : firstTeam (sync_insightvm_assets (.ok [a]) uid t1 db0).1 = some dt := by
    rw [hrun1]
    exact hteam
  have hfind1 : findAssetByIP (sync_insightvm_assets (.ok [a]) uid t1 db0).1 ip =
      some (createdAssetRow a ip dt.id uid db0.next_asset_id) := by
    rw [hrun1]
    unfold findAssetByIP
    dsimp only
    rw [find?_append_left_none hnew]
    simp [hprow]
  have hrun2 := sync_assets_singleton_update_run
    (sync_insightvm_assets (.ok [a]) uid t1 db0).1 a ip uid t2 hip
    (createdAssetRow a ip dt.id uid db0.next_asset_id) hfind1 dt hteam1
  have hassets2 : (sync_insightvm_assets (.ok [a]) uid t2
      (sync_insightvm_assets (.ok [a]) uid t1 db0).1).1.assets =
      db0.assets ++
        [updatedAssetRow a t2 (createdAssetRow a ip dt.id uid db0.next_asset_id)] := by
    rw [hrun2, hrun1]
    dsimp only
    rw [updateFirstBy_append_left_none _ _ hnew]
    simp [updateFirstBy, hprow]
  refine ⟨?_, ?_, ?_⟩
  · rw [hrun1]
    unfold countAssetsWithIP
    dsimp only
    rw [List.filter_append, hfilter0]
    simp [hprow]
  · unfold countAssetsWithIP
    rw [hassets2, List.filter_append, hfilter0]
    have : ((updatedAssetRow a t2
        (createdAssetRow a ip dt.id uid db0.next_asset_id)).ip_address == ip) = true := by
      simpa [updatedAssetRow] using hprow
    simp [this]
  · rw [hassets2, hrun1]
    simp

/-- C2 witness: the idempotence property at a concrete store and external
record. -/
theorem C2_asset_sync_idempotent_witness :
    countAssetsWithIP
      (sync_insightvm_assets
        (.ok [{ id := some 9, ip := some "10.0.0.7", hostName := some "h7", os := some "linux" }])
        2 100
        { teams := [{ id := 4, name := "t", parent_team_id := none, team_type := "main" }],
          users := [], assets := [], vulns := [], next_asset_id := 1, next_vuln_id := 1 }).1
      "10.0.0.7" = 1 ∧
    countAssetsWithIP
      (sync_insightvm_assets
        (.ok [{ id := some 9, ip := some "10.0.0.7", hostName := some "h7", os := some "linux" }])
        2 200
        (sync_insightvm_assets
          (.ok [{ id := some 9, ip := some "10.0.0.7", hostName := some "h7", os := some "linux" }])
          2 100
          { teams := [{ id := 4, name := "t", parent_team_id := none, team_type := "main" }],
            users := [], assets := [], vulns := [], next_asset_id := 1,
            next_vuln_id := 1 }).1).1 "10.0.0.7" = 1 ∧
    (sync_insightvm_assets
        (.ok [{ id := some 9, ip := some "10.0.0.7", hostName := some "h7", os := some "linux" }])
        2 200
        (sync_insightvm_assets
          (.ok [{ id := some 9, ip := some "10.0.0.7", hostName := some "h7", os := some "linux" }])
          2 100
          { teams := [{ id := 4, name := "t", parent_team_id := none, team_type := "main" }],
            users := [], assets := [], vulns := [], next_asset_id := 1,
            next_vuln_id := 1 }).1).1.assets.length =
      (sync_insightvm_assets
        (.ok [{ id := some 9, ip := some "10.0.0.7", hostName := some "h7", os := some "linux" }])
        2 100
        { teams := [{ id := 4, name := "t", parent_team_id := none, team_type := "main" }],
          users := [], assets := [], vulns := [], next_asset_id := 1,
          next_vuln_id := 1 }).1.assets.length :=
  C2_asset_sync_idempotent
    { teams := [{ id := 4, name := "t", parent_team_id := none, team_type := "main" }],
      users := [], assets := [], vulns := [], next_asset_id := 1, next_vuln_id := 1 }
    { id := some 9, ip := some "10.0.0.7", hostName := some "h7", os := some "linux" }
    "10.0.0.7" 2 100 200 rfl (by decide)
    { id := 4, name := "t", parent_team_id := none, team_type := "main" } rfl

/-- C4: when the up-front connectivity check reports anything but
`"connected"`, the vulnerability sync aborts at once with the error result
and the store is returned exactly as it was — no asset or vulnerability
creation or update has happened. -/
theorem C4_vuln_sync_connectivity_failure_aborts
    (conn : ConnectionTest) (hconn : conn.status ≠ "connected")
    (assetsResponse : Except String (List ExtAsset))
    (vulnsResponse : Nat → Except String (List (ExtVuln × Option String)))
    (uid : Nat) (now : Int) (db : DB) :
    sync_insightvm_vulnerabilities conn assetsResponse vulnsResponse uid now db =
      (db, .error ("InsightVM connection failed: " ++ conn.message)) := by
  unfold sync_insightvm_vulnerabilities
  rw [if_pos hconn]

/-- C4 witness: a concrete failed connection test aborts a sync over a
non-empty upstream batch, leaving a non-empty store untouched. -/
theorem C4_vuln_sync_connectivity_failure_aborts_witness :
    sync_insightvm_vulnerabilities
      { status := "failed", message := "Failed to connect to InsightVM: refused" }
      (.ok [{ id := some 9, ip := some "10.0.0.7", hostName := none, os := none }])
      (fun _ => .ok [])
      2 100
      { teams := [{ id := 4, name := "t", parent_team_id := none, team_type := "main" }],
        users := [], assets := [], vulns := [], next_asset_id := 1, next_vuln_id := 1 } =
      ({ teams := [{ id := 4, name := "t", parent_team_id := none, team_type := "main" }],
         users := [], assets := [], vulns := [], next_asset_id := 1, next_vuln_id := 1 },
       .error ("InsightVM connection failed: " ++ "Failed to connect to InsightVM: refused")) :=
  C4_vuln_sync_connectivity_failure_aborts
    { status := "failed", message := "Failed to connect to InsightVM: refused" }
    (by decide)
    (.ok [{ id := some 9, ip := some "10.0.0.7", hostName := none, os := none }])
    (fun _ => .ok []) 2 100
    { teams := [{ id := 4, name := "t", parent_team_id := none, team_type := "main" }],
      users := [], assets := [], vulns := [], next_asset_id := 1, next_vuln_id := 1 }

/-- C5 counterexample: the claim maps upstream severity `"severe"` to
`"high"`, but the sync create path (main.py line 1981) stores the upstream
string merely lower-cased: a concrete record with severity `"Severe"` is
stored as `"severe"`, not `"high"`. -/
theorem C5_severity_vocabulary_counterexample :
    (syncOneVuln 1 0
      { db := { teams := [], users := [], assets := [], vulns := [],
                next_asset_id := 1, next_vuln_id := 1 },
        synced_count := 0, error_count := 0, errors := [] }
      { id := some "ssh-weak", title := none, descriptionText := none,
        severity := some "Severe", cvssV3Score := none
        }).db.vulns.map Vulnerability.severity = ["severe"] ∧
    "severe" ≠ "high" := by
  decide

/-- C5 (amended): the sync stores every upstream severity string
lower-cased verbatim — nothing is rejected, and no vocabulary mapping is
applied (so `"critical"` and `"low"` are preserved while `"Severe"` and
`"Moderate"` become `"severe"` and `"moderate"`, not `"high"` /
`"medium"`): both the create and the update path write exactly the
lower-cased upstream string. -/
theorem C5_severity_stored_lowercased
    (v : ExtVuln) (s : String) (hs : v.severity = some s)
    (vid : String) (aid : Nat) (now : Int) (rowId : Nat) (e : Vulnerability) :
    (createdVulnRow v vid aid now rowId).severity = pyLower s ∧
    (updatedVulnRow v now e).severity = pyLower s := by
  constructor <;> simp [createdVulnRow, updatedVulnRow, hs]

/-- C5 witness: the lower-cased pass-through at concrete severities
`"Severe"` and an out-of-vocabulary `"WeIrD"`. -/
theorem C5_severity_stored_lowercased_witness :
    ((createdVulnRow
        { id := some "v1", title := none, descriptionText := none,
          severity := some "Severe", cvssV3Score := none } "v1" 1 0 1).severity =
      pyLower "Severe" ∧
     (updatedVulnRow
        { id := some "v1", title := none, descriptionText := none,
          severity := some "Severe", cvssV3Score := none } 0
        { id := 1, asset_id := 1, rapid7_vuln_id := "v1", title := "t",
          description := "", severity := "low", cvss_score := "0",
          status := "open", discovered_date := 0, last_seen := 0 }).severity =
      pyLower "Severe") ∧
    ((createdVulnRow
        { id := some "v2", title := none, descriptionText := none,
          severity := some "WeIrD", cvssV3Score := none } "v2" 1 0 1).severity =
      pyLower "WeIrD" ∧
     (updatedVulnRow
        { id := some "v2", title := none, descriptionText := none,
          severity := some "WeIrD", cvssV3Score := none } 0
        { id := 1, asset_id := 1, rapid7_vuln_id := "v2", title := "t",
          description := "", severity := "low", cvss_score := "0",
          status := "open", discovered_date := 0, last_seen := 0 }).severity =
      pyLower "WeIrD") :=
  ⟨C5_severity_stored_lowercased
      { id := some "v1", title := none, descriptionText := none,
        severity := some "Severe", cvssV3Score := none } "Severe" rfl "v1" 1 0 1
      { id := 1, asset_id := 1, rapid7_vuln_id := "v1", title := "t",
        description := "", severity := "low", cvss_score := "0",
        status := "open", discovered_date := 0, last_seen := 0 },
   C5_severity_stored_lowercased
      { id := some "v2", title := none, descriptionText := none,
        severity := some "WeIrD", cvssV3Score := none } "WeIrD" rfl "v2" 1 0 1
      { id := 1, asset_id := 1, rapid7_vuln_id := "v2", title := "t",
        description := "", severity := "low", cvss_score := "0",
        status := "open", discovered_date := 0, last_seen := 0 }⟩

theorem sync_vulns_singleton_create_run
    (db : DB) (conn : ConnectionTest) (hconn : conn.status = "connected")
    (a : ExtAsset) (aid : Nat) (ip : String)
    (hid : a.id = some aid) (hip : a.ip = some ip)
    (la : Asset) (hla : findAssetByIP db ip = some la)
    (v : ExtVuln) (vid : String) (hvid : v.id = some vid)
    (vresp : Nat → Except String (List (ExtVuln × Option String)))
    (hvresp : vresp aid = .ok [(v, none)])
    (hnew : findVulnerability db la.id vid = none)
    (uid : Nat) (t : Int) :
    sync_insightvm_vulnerabilities conn (.ok [a]) vresp uid t db =
      ({ db with
           vulns := db.vulns ++ [createdVulnRow v vid la.id t db.next_vuln_id]
           next_vuln_id := db.next_vuln_id + 1 },
       .ok { message := "Vulnerability sync completed", synced_count := 1,
             error_count := 0, errors := [] }) := by
  unfold sync_insightvm_vulnerabilities
  rw [if_neg (by simp [hconn])]
  dsimp only
  rw [List.foldl_cons, List.foldl_nil]
  unfold syncVulnAssetStep
  rw [hid, hip]
  dsimp only
  rw [hla]
  dsimp only
  rw [hvresp]
  dsimp only
  unfold syncVulnsLoop
  rw [List.foldl_cons, List.foldl_nil]
  unfold syncVulnStep
  dsimp only
  unfold syncOneVuln
  rw [hvid]
  dsimp only
  rw [hnew]
  rfl

theorem sync_vulns_singleton_update_run
    (db : DB) (conn : ConnectionTest) (hconn : conn.status = "connected")
    (a : ExtAsset) (aid : Nat) (ip : String)
    (hid : a.id = some aid) (hip : a.ip = some ip)
    (la : Asset) (hla : findAssetByIP db ip = some la)
    (v : ExtVuln) (vid : String) (hvid : v.id = some vid)
    (vresp : Nat → Except String (List (ExtVuln × Option String)))
    (hvresp : vresp aid = .ok [(v, none)])
    (ex : Vulnerability) (hfound : findVulnerability db la.id vid = some ex)
    (uid : Nat) (t : Int) :
    sync_insightvm_vulnerabilities conn (.ok [a]) vresp uid t db =
      ({ db with
           vulns := updateFirstBy
             (fun e => e.asset_id == la.id && e.rapid7_vuln_id == vid)
             (updatedVulnRow v t) db.vulns },
       .ok { message := "Vulnerability sync completed", synced_count := 1,
             error_count := 0, errors := [] }) := by
  unfold sync_insightvm_vulnerabilities
  rw [if_neg (by simp [hconn])]
  dsimp only
  rw [List.foldl_cons, List.foldl_nil]
  unfold syncVulnAssetStep
  rw [hid, hip]
  dsimp only
  rw [hla]
  dsimp only
  rw [hvresp]
  dsimp only
  unfold syncVulnsLoop
  rw [List.foldl_cons, List.foldl_nil]
  unfold syncVulnStep
  dsimp only
  unfold syncOneVuln
  rw [hvid]
  dsimp only
  rw [hfound]
  rfl

/-- C1: with identical upstream data (one external asset matching local
asset `la`, one vulnerability record `vid` not yet known locally), running
the vulnerability sync twice yields exactly one local vulnerability row
for `(la.id, vid)`: the first run creates it (status `"open"`, discovered
and last_seen stamped with the first run's time), the second run takes the
update path, setting last_seen to the second run's time while leaving
discovered_date and status unchanged. -/
theorem C1_vuln_sync_twice_single_row
    (db0 : DB) (conn : ConnectionTest) (hconn : conn.status = "connected")
    (a : ExtAsset) (aid : Nat) (ip : String)
    (hid : a.id = some aid) (hip : a.ip = some ip)
    (la : Asset) (hla : findAssetByIP db0 ip = some la)
    (v : ExtVuln) (vid : String) (hvid : v.id = some vid)
    (vresp : Nat → Except String (List (ExtVuln × Option String)))
    (hvresp : vresp aid = .ok [(v, none)])
    (hnew : findVulnerability db0 la.id vid = none)
    (uid : Nat) (t1 t2 : Int) :
    countVulnRows (sync_insightvm_vulnerabilities conn (.ok [a]) vresp uid t1 db0).1
      la.id vid = 1 ∧
    countVulnRows
      (sync_insightvm_vulnerabilities conn (.ok [a]) vresp uid t2
        (sync_insightvm_vulnerabilities conn (.ok [a]) vresp uid t1 db0).1).1
      la.id vid = 1 ∧
    findVulnerability (sync_insightvm_vulnerabilities conn (.ok [a]) vresp uid t1 db0).1
      la.id vid = some (createdVulnRow v vid la.id t1 db0.next_vuln_id) ∧
    findVulnerability
      (sync_insightvm_vulnerabilities conn (.ok [a]) vresp uid t2
        (sync_insightvm_vulnerabilities conn (.ok [a]) vresp uid t1 db0).1).1
      la.id vid =
      some (updatedVulnRow v t2 (createdVulnRow v vid la.id t1 db0.next_vuln_id)) ∧
    (createdVulnRow v vid la.id t1 db0.next_vuln_id).discovered_date = t1 ∧
    (createdVulnRow v vid la.id t1 db0.next_vuln_id).last_seen = t1 ∧
    (createdVulnRow v vid la.id t1 db0.next_vuln_id).status = "open" ∧
    (updatedVulnRow v t2 (createdVulnRow v vid la.id t1 db0.next_vuln_id)).last_seen = t2 ∧
    (updatedVulnRow v t2 (createdVulnRow v vid la.id t1 db0.next_vuln_id)).discovered_date = t1 ∧
    (updatedVulnRow v t2 (createdVulnRow v vid la.id t1 db0.next_vuln_id)).status = "open" := by
  have hrun1 := sync_vulns_singleton_create_run db0 conn hconn a aid ip hid hip
    la hla v vid hvid vresp hvresp hnew uid t1
  have hfilter0 :
      db0.vulns.filter (fun e => e.asset_id == la.id && e.rapid7_vuln_id == vid) = [] :=
    filter_eq_nil_of_find?_none hnew
  have hprow : ((createdVulnRow v vid la.id t1 db0.next_vuln_id).asset_id == la.id &&
      (createdVulnRow v vid la.id t1 db0.next_vuln_id).rapid7_vuln_id == vid) = true := by
    simp [createdVulnRow]
  have hla1 : findAssetByIP (sync_insightvm_vulnerabilities conn (.ok [a]) vresp uid t1 db0).1
      ip = some la := by
    rw [hrun1]
    exact hla
  have hfind1 : findVulnerability
      (sync_insightvm_vulnerabilities conn (.ok [a]) vresp uid t1 db0).1 la.id vid =
      some (createdVulnRow v vid la.id t1 db0.next_vuln_id) := by
    rw [hrun1]
    unfold findVulnerability
    dsimp only
    rw [find?_append_left_none hnew]
    simp [hprow]
  have hrun2 := sync_vulns_singleton_update_run
    (sync_insightvm_vulnerabilities conn (.ok [a]) vresp uid t1 db0).1 conn hconn
    a aid ip hid hip la hla1 v vid hvid vresp hvresp
    (createdVulnRow v vid la.id t1 db0.next_vuln_id) hfind1 uid t2
  have hvulns2 : (sync_insightvm_vulnerabilities conn (.ok [a]) vresp uid t2
      (sync_insightvm_vulnerabilities conn (.ok [a]) vresp uid t1 db0).1).1.vulns =
      db0.vulns ++
        [updatedVulnRow v t2 (createdVulnRow v vid la.id t1 db0.next_vuln_id)] := by
    rw [hrun2, hrun1]
    dsimp only
    rw [updateFirstBy_append_left_none _ _ hnew]
    simp [updateFirstBy, hprow]
  have hprow2 : ((updatedVulnRow v t2
      (createdVulnRow v vid la.id t1 db0.next_vuln_id)).asset_id == la.id &&
      (updatedVulnRow v t2
        (createdVulnRow v vid la.id t1 db0.next_vuln_id)).rapid7_vuln_id == vid) = true := by
    simpa [updatedVulnRow] using hprow
  refine ⟨?_, ?_, hfind1, ?_, rfl, rfl, rfl, rfl, rfl, rfl⟩
  · rw [hrun1]
    unfold countVulnRows
    dsimp only
    rw [List.filter_append, hfilter0]
    simp [hprow]
  · unfold countVulnRows
    rw [hvulns2, List.filter_append, hfilter0]
    simp [hprow2]
  · unfold findVulnerability
    rw [hvulns2, find?_append_left_none hnew]
    simp [hprow2]

/-- C1 witness: the double-run property at a concrete store, external
asset and vulnerability record, with the second run at a later time. -/
theorem C1_vuln_sync_twice_single_row_witness :
    countVulnRows
      (sync_insightvm_vulnerabilities { status := "connected", message := "ok" }
        (.ok [{ id := some 77, ip := some "10.0.0.7", hostName := none, os := none }])
        (fun _ => .ok [({ id := some "tls-weak", title := some "Weak TLS",
                          descriptionText := some "d", severity := some "Moderate",
                          cvssV3Score := some 4 }, none)])
        2 100
        { teams := [], users := [],
          assets := [{ id := 1, name := "srv", ip_address := "10.0.0.7",
                       os_version := "linux", public_facing := false, team_id := 4,
                       owner_id := none, last_reviewed_date := none,
                       environment := "dev", criticality := "medium", updated_at := none }],
          vulns := [], next_asset_id := 2, next_vuln_id := 1 }).1 1 "tls-weak" = 1 ∧
    countVulnRows
      (sync_insightvm_vulnerabilities { status := "connected", message := "ok" }
        (.ok [{ id := some 77, ip := some "10.0.0.7", hostName := none, os := none }])
        (fun _ => .ok [({ id := some "tls-weak", title := some "Weak TLS",
                          descriptionText := some "d", severity := some "Moderate",
                          cvssV3Score := some 4 }, none)])
        2 200
        (sync_insightvm_vulnerabilities { status := "connected", message := "ok" }
          (.ok [{ id := some 77, ip := some "10.0.0.7", hostName := none, os := none }])
          (fun _ => .ok [({ id := some "tls-weak", title := some "Weak TLS",
                            descriptionText := some "d", severity := some "Moderate",
                            cvssV3Score := some 4 }, none)])
          2 100
          { teams := [], users := [],
            assets := [{ id := 1, name := "srv", ip_address := "10.0.0.7",
                         os_version := "linux", public_facing := false, team_id := 4,
                         owner_id := none, last_reviewed_date := none,
                         environment := "dev", criticality := "medium", updated_at := none }],
            vulns := [], next_asset_id := 2, next_vuln_id := 1 }).1).1 1 "tls-weak" = 1 ∧
    (updatedVulnRow
      { id := some "tls-weak", title := some "Weak TLS", descriptionText := some "d",
        severity := some "Moderate", cvssV3Score := some 4 } 200
      (createdVulnRow
        { id := some "tls-weak", title := some "Weak TLS", descriptionText := some "d",
          severity := some "Moderate", cvssV3Score := some 4 }
        "tls-weak" 1 100 1)).last_seen = 200 ∧
    (updatedVulnRow
      { id := some "tls-weak", title := some "Weak TLS", descriptionText := some "d",
        severity := some "Moderate", cvssV3Score := some 4 } 200
      (createdVulnRow
        { id := some "tls-weak", title := some "Weak TLS", descriptionText := some "d",
          severity := some "Moderate", cvssV3Score := some 4 }
        "tls-weak" 1 100 1)).discovered_date = 100 ∧
    (updatedVulnRow
      { id := some "tls-weak", title := some "Weak TLS", descriptionText := some "d",
        severity := some "Moderate", cvssV3Score := some 4 } 200
      (createdVulnRow
        { id := some "tls-weak", title := some "Weak TLS", descriptionText := some "d",
          severity := some "Moderate", cvssV3Score := some 4 }
        "tls-weak" 1 100 1)).status = "open" := by
  have h := C1_vuln_sync_twice_single_row
    { teams := [], users := [],
      assets := [{ id := 1, name := "srv", ip_address := "10.0.0.7",
                   os_version := "linux", public_facing := false, team_id := 4,
                   owner_id := none, last_reviewed_date := none,
                   environment := "dev", criticality := "medium", updated_at := none }],
      vulns := [], next_asset_id := 2, next_vuln_id := 1 }
    { status := "connected", message := "ok" } rfl
    { id := some 77, ip := some "10.0.0.7", hostName := none, os := none } 77 "10.0.0.7"
    rfl rfl
    { id := 1, name := "srv", ip_address := "10.0.0.7",
      os_version := "linux", public_facing := false, team_id := 4,
      owner_id := none, last_reviewed_date := none,
      environment := "dev", criticality := "medium", updated_at := none }
    (by decide)
    { id := some "tls-weak", title := some "Weak TLS", descriptionText := some "d",
      severity := some "Moderate", cvssV3Score := some 4 } "tls-weak" rfl
    (fun _ => .ok [({ id := some "tls-weak", title := some "Weak TLS",
                      descriptionText := some "d", severity := some "Moderate",
                      cvssV3Score := some 4 }, none)])
    rfl
    (by decide)
    2 100 200
  exact ⟨h.1, h.2.1, h.2.2.2.2.2.2.2.1, h.2.2.2.2.2.2.2.2.1, h.2.2.2.2.2.2.2.2.2⟩

theorem syncVulnsLoop_append (aid : Nat) (now : Int) (st : SyncState)
    (l1 l2 : List (ExtVuln × Option String)) :
    syncVulnsLoop aid now st (l1 ++ l2) =
      syncVulnsLoop aid now (syncVulnsLoop aid now st l1) l2 :=
  List.foldl_append _ _ _ _

theorem syncOneVuln_counters (aid : Nat) (now : Int) (st : SyncState)
    (v : ExtVuln) (vid : String) (hvid : v.id = some vid) :
    (syncOneVuln aid now st v).synced_count = st.synced_count + 1 ∧
    (syncOneVuln aid now st v).error_count = st.error_count ∧
    (syncOneVuln aid now st v).errors = st.errors := by
  unfold syncOneVuln
  rw [hvid]
  dsimp only
  cases findVulnerability st.db aid vid <;> simp

/-- A run of the vulnerability loop over fault-free records that all carry
an id increments synced_count once per record and touches neither
error_count nor the error list. -/
theorem syncVulnsLoop_no_fault (aid : Nat) (now : Int)
    (vs : List ExtVuln) (hids : ∀ v ∈ vs, (ExtVuln.id v).isSome) (st : SyncState) :
    (syncVulnsLoop aid now st (vs.map (fun v => (v, none)))).synced_count =
      st.synced_count + vs.length ∧
    (syncVulnsLoop aid now st (vs.map (fun v => (v, none)))).error_count =
      st.error_count ∧
    (syncVulnsLoop aid now st (vs.map (fun v => (v, none)))).errors = st.errors := by
  induction vs generalizing st with
  | nil => exact ⟨rfl, rfl, rfl⟩
  | cons v rest ih =>
    obtain ⟨vid, hvid⟩ := Option.isSome_iff_exists.mp (hids v (List.mem_cons_self v rest))
    have hstep : syncVulnsLoop aid now st ((v :: rest).map (fun w => (w, none))) =
        syncVulnsLoop aid now (syncOneVuln aid now st v)
          (rest.map (fun w => (w, none))) := by
      unfold syncVulnsLoop
      rw [List.map_cons, List.foldl_cons]
      rfl
    have hone := syncOneVuln_counters aid now st v vid hvid
    have hrest := ih (fun w hw => hids w (List.mem_cons_of_mem v hw)) (syncOneVuln aid now st v)
    refine ⟨?_, ?_, ?_⟩
    · rw [hstep, hrest.1, hone.1, List.length_cons]
      omega
    · rw [hstep, hrest.2.1, hone.2.1]
    · rw [hstep, hrest.2.2, hone.2.2]

/-- The vulnerability sync over a single external asset matching local
asset `la` reduces to the per-asset vulnerability loop over the listing it
received. -/
theorem sync_vulns_singleton_asset_run
    (db : DB) (conn : ConnectionTest) (hconn : conn.status = "connected")
    (a : ExtAsset) (aid : Nat) (ip : String)
    (hid : a.id = some aid) (hip : a.ip = some ip)
    (la : Asset) (hla : findAssetByIP db ip = some la)
    (vresp : Nat → Except String (List (ExtVuln × Option String)))
    (batch : List (ExtVuln × Option String)) (hvresp : vresp aid = .ok batch)
    (uid : Nat) (t : Int) :
    sync_insightvm_vulnerabilities conn (.ok [a]) vresp uid t db =
      ((syncVulnsLoop la.id t
          { db := db, synced_count := 0, error_count := 0, errors := [] } batch).db,
       .ok { message := "Vulnerability sync completed"
             synced_count := (syncVulnsLoop la.id t
               { db := db, synced_count := 0, error_count := 0, errors := [] }
               batch).synced_count
             error_count := (syncVulnsLoop la.id t
               { db := db, synced_count := 0, error_count := 0, errors := [] }
               batch).error_count
             errors := (syncVulnsLoop la.id t
               { db := db, synced_count := 0, error_count := 0, errors := [] }
               batch).errors.take 10 }) := by
  unfold sync_insightvm_vulnerabilities
  rw [if_neg (by simp [hconn])]
  dsimp only
  rw [List.foldl_cons, List.foldl_nil]
  unfold syncVulnAssetStep
  rw [hid, hip]
  dsimp only
  rw [hla]
  dsimp only
  rw [hvresp]

/-- C3: in a vulnerability batch of 10 records (4 clean, one whose
processing raises, then 5 more clean), the sync report shows
synced_count = 9 and error_count = 1, the five records after the failing
one are still processed (they are part of the 9), and the report's error
list is exactly the single message — in particular within the
first-10-messages cap. -/
theorem C3_vuln_sync_fault_isolation
    (db0 : DB) (conn : ConnectionTest) (hconn : conn.status = "connected")
    (a : ExtAsset) (aid : Nat) (ip : String)
    (hid : a.id = some aid) (hip : a.ip = some ip)
    (la : Asset) (hla : findAssetByIP db0 ip = some la)
    (pre post : List ExtVuln) (hpre : pre.length = 4) (hpost : post.length = 5)
    (hpreids : ∀ v ∈ pre, (ExtVuln.id v).isSome)
    (hpostids : ∀ v ∈ post, (ExtVuln.id v).isSome)
    (vbad : ExtVuln) (msg : String)
    (vresp : Nat → Except String (List (ExtVuln × Option String)))
    (hvresp : vresp aid = .ok
      (pre.map (fun v => (v, none)) ++ (vbad, some msg) :: post.map (fun v => (v, none))))
    (uid : Nat) (t : Int) :
    (sync_insightvm_vulnerabilities conn (.ok [a]) vresp uid t db0).2 =
      .ok { message := "Vulnerability sync completed"
            synced_count := 9
            error_count := 1
            errors := ["Error syncing vulnerability " ++
              (vbad.id.getD "unknown") ++ ": " ++ msg] } := by
  rw [sync_vulns_singleton_asset_run db0 conn hconn a aid ip hid hip la hla vresp _ hvresp uid t]
  have hdecomp : syncVulnsLoop la.id t
      { db := db0, synced_count := 0, error_count := 0, errors := [] }
      (pre.map (fun v => (v, none)) ++ (vbad, some msg) :: post.map (fun v => (v, none))) =
      syncVulnsLoop la.id t
        (syncVulnStep la.id t
          (syncVulnsLoop la.id t
            { db := db0, synced_count := 0, error_count := 0, errors := [] }
            (pre.map (fun v => (v, none))))
          (vbad, some msg))
        (post.map (fun v => (v, none))) := by
    rw [syncVulnsLoop_append]
    unfold syncVulnsLoop
    rw [List.foldl_cons]
  have hpre9 := syncVulnsLoop_no_fault la.id t pre hpreids
    { db := db0, synced_count := 0, error_count := 0, errors := [] }
  have hstep : syncVulnStep la.id t
      (syncVulnsLoop la.id t
        { db := db0, synced_count := 0, error_count := 0, errors := [] }
        (pre.map (fun v => (v, none))))
      (vbad, some msg) =
      { syncVulnsLoop la.id t
          { db := db0, synced_count := 0, error_count := 0, errors := [] }
          (pre.map (fun v => (v, none))) with
        error_count := (syncVulnsLoop la.id t
          { db := db0, synced_count := 0, error_count := 0, errors := [] }
          (pre.map (fun v => (v, none)))).error_count + 1
        errors := (syncVulnsLoop la.id t
          { db := db0, synced_count := 0, error_count := 0, errors := [] }
          (pre.map (fun v => (v, none)))).errors ++
          ["Error syncing vulnerability " ++ (vbad.id.getD "unknown") ++ ": " ++ msg] } := rfl
  have hpost9 := syncVulnsLoop_no_fault la.id t post hpostids
    (syncVulnStep la.id t
      (syncVulnsLoop la.id t
        { db := db0, synced_count := 0, error_count := 0, errors := [] }
        (pre.map (fun v => (v, none))))
      (vbad, some msg))
  dsimp only
  rw [hdecomp]
  refine congrArg Except.ok ?_
  have hsynced : (syncVulnsLoop la.id t
      (syncVulnStep la.id t
        (syncVulnsLoop la.id t
          { db := db0, synced_count := 0, error_count := 0, errors := [] }
          (pre.map (fun v => (v, none))))
        (vbad, some msg))
      (post.map (fun v => (v, none)))).synced_count = 9 := by
    rw [hpost9.1, hstep]
    dsimp only
    rw [hpre9.1, hpre, hpost]
  have herrcount : (syncVulnsLoop la.id t
      (syncVulnStep la.id t
        (syncVulnsLoop la.id t
          { db := db0, synced_count := 0, error_count := 0, errors := [] }
          (pre.map (fun v => (v, none))))
        (vbad, some msg))
      (post.map (fun v => (v, none)))).error_count = 1 := by
    rw [hpost9.2.1, hstep]
    dsimp only
    rw [hpre9.2.1]
  have herrs : (syncVulnsLoop la.id t
      (syncVulnStep la.id t
        (syncVulnsLoop la.id t
          { db := db0, synced_count := 0, error_count := 0, errors := [] }
          (pre.map (fun v => (v, none))))
        (vbad, some msg))
      (post.map (fun v => (v, none)))).errors =
      ["Error syncing vulnerability " ++ (vbad.id.getD "unknown") ++ ": " ++ msg] := by
    rw [hpost9.2.2, hstep]
    dsimp only
    rw [hpre9.2.2]
    rfl
  rw [hsynced, herrcount, herrs]
  rfl

/-- External vulnerability record fixture carrying only an id. -/
def extVulnNamed (s : String) : ExtVuln :=
  { id := some s, title := none, descriptionText := none,
    severity := none, cvssV3Score := none }

/-- C3 witness: a concrete batch of 10 records where the 5th raises
`"boom"` yields synced_count 9, error_count 1, one error message. -/
theorem C3_vuln_sync_fault_isolation_witness :
    (sync_insightvm_vulnerabilities { status := "connected", message := "ok" }
      (.ok [{ id := some 77, ip := some "10.0.0.7", hostName := none, os := none }])
      (fun _ => .ok
        ([extVulnNamed "v1", extVulnNamed "v2", extVulnNamed "v3",
          extVulnNamed "v4"].map (fun v => (v, none)) ++
         (extVulnNamed "v5", some "boom") ::
         [extVulnNamed "v6", extVulnNamed "v7", extVulnNamed "v8",
          extVulnNamed "v9", extVulnNamed "v10"].map (fun v => (v, none))))
      2 100
      { teams := [], users := [],
        assets := [{ id := 1, name := "srv", ip_address := "10.0.0.7",
                     os_version := "linux", public_facing := false, team_id := 4,
                     owner_id := none, last_reviewed_date := none,
                     environment := "dev", criticality := "medium", updated_at := none }],
        vulns := [], next_asset_id := 2, next_vuln_id := 1 }).2 =
      .ok { message := "Vulnerability sync completed"
            synced_count := 9
            error_count := 1
            errors := ["Error syncing vulnerability " ++
              ((extVulnNamed "v5").id.getD "unknown") ++ ": " ++ "boom"] } :=
  C3_vuln_sync_fault_isolation
    { teams := [], users := [],
      assets := [{ id := 1, name := "srv", ip_address := "10.0.0.7",
                   os_version := "linux", public_facing := false, team_id := 4,
                   owner_id := none, last_reviewed_date := none,
                   environment := "dev", criticality := "medium", updated_at := none }],
      vulns := [], next_asset_id := 2, next_vuln_id := 1 }
    { status := "connected", message := "ok" } rfl
    { id := some 77, ip := some "10.0.0.7", hostName := none, os := none } 77 "10.0.0.7"
    rfl rfl
    { id := 1, name := "srv", ip_address := "10.0.0.7",
      os_version := "linux", public_facing := false, team_id := 4,
      owner_id := none, last_reviewed_date := none,
      environment := "dev", criticality := "medium", updated_at := none }
    (by decide)
    [extVulnNamed "v1", extVulnNamed "v2", extVulnNamed "v3", extVulnNamed "v4"]
    [extVulnNamed "v6", extVulnNamed "v7", extVulnNamed "v8",
     extVulnNamed "v9", extVulnNamed "v10"]
    rfl rfl (by decide) (by decide)
    (extVulnNamed "v5") "boom"
    (fun _ => .ok
      ([extVulnNamed "v1", extVulnNamed "v2", extVulnNamed "v3",
        extVulnNamed "v4"].map (fun v => (v, none)) ++
       (extVulnNamed "v5", some "boom") ::
       [extVulnNamed "v6", extVulnNamed "v7", extVulnNamed "v8",
        extVulnNamed "v9", extVulnNamed "v10"].map (fun v => (v, none))))
    rfl 2 100

/-- C8: the team deletion guard.  A team with a sub-team is not deleted:
the call errors with a message naming the blocking sub-teams (the member
sub-team's name is among the listed names) and the team row remains.
A team blocked by assigned assets errors with the blocking asset count; a
team blocked by assigned users errors with the blocking user count.  And
when every precondition holds but the database fails during deletion, the
store rolls back unchanged and the failure surfaces as an error. -/
theorem C8_delete_team_guard
    (db : DB) (tid : Nat) (t : Team)
    (hfind : db.teams.find? (fun x => x.id == tid) = some t)
    (s : Team) (hsub : s ∈ get_sub_teams db tid)
    (co : Option String)
    (db3 : DB) (tid3 : Nat) (t3 : Team)
    (hfind3 : db3.teams.find? (fun x => x.id == tid3) = some t3)
    (hnosub3 : get_sub_teams db3 tid3 = [])
    (hassets3 : teamAssetCount db3 tid3 > 0) (co3 : Option String)
    (db4 : DB) (tid4 : Nat) (t4 : Team)
    (hfind4 : db4.teams.find? (fun x => x.id == tid4) = some t4)
    (hnosub4 : get_sub_teams db4 tid4 = [])
    (hnoassets4 : teamAssetCount db4 tid4 = 0)
    (husers4 : teamUserCount db4 tid4 > 0) (co4 : Option String)
    (db2 : DB) (tid2 : Nat) (t2 : Team)
    (hfind2 : db2.teams.find? (fun x => x.id == tid2) = some t2)
    (hnosub2 : get_sub_teams db2 tid2 = [])
    (hnoassets2 : teamAssetCount db2 tid2 = 0)
    (hnousers2 : teamUserCount db2 tid2 = 0)
    (e : String) :
    (delete_team co db tid =
      (db, .error ("Cannot delete team with sub-teams: " ++
        String.intercalate ", " ((get_sub_teams db tid).map Team.name) ++
        ". Delete sub-teams first.")) ∧
     s.name ∈ (get_sub_teams db tid).map Team.name ∧
     (delete_team co db tid).1.teams.find? (fun x => x.id == tid) = some t) ∧
    delete_team co3 db3 tid3 =
      (db3, .error ("Cannot delete team with " ++ toString (teamAssetCount db3 tid3) ++
        " assets. Reassign assets first.")) ∧
    delete_team co4 db4 tid4 =
      (db4, .error ("Cannot delete team with " ++ toString (teamUserCount db4 tid4) ++
        " users assigned. Reassign users first.")) ∧
    (delete_team (some e) db2 tid2 =
      (db2, .error ("Database error during deletion: " ++ e)) ∧
     (delete_team (some e) db2 tid2).1.teams.find? (fun x => x.id == tid2) = some t2) := by
  have hA : delete_team co db tid =
      (db, .error ("Cannot delete team with sub-teams: " ++
        String.intercalate ", " ((get_sub_teams db tid).map Team.name) ++
        ". Delete sub-teams first.")) := by
    unfold delete_team
    rw [hfind]
    dsimp only
    rw [if_pos (List.ne_nil_of_mem hsub)]
  have hB : delete_team (some e) db2 tid2 =
      (db2, .error ("Database error during deletion: " ++ e)) := by
    unfold delete_team
    rw [hfind2]
    dsimp only
    rw [if_neg (by simp [hnosub2]), if_neg (by omega), if_neg (by omega)]
  refine ⟨⟨hA, List.mem_map_of_mem Team.name hsub, ?_⟩, ?_, ?_, hB, ?_⟩
  · rw [hA]
    exact hfind
  · unfold delete_team
    rw [hfind3]
    dsimp only
    rw [if_neg (by simp [hnosub3]), if_pos hassets3]
  · unfold delete_team
    rw [hfind4]
    dsimp only
    rw [if_neg (by simp [hnosub4]), if_neg (by omega), if_pos husers4]
  · rw [hB]
    exact hfind2

/-- C8 witness: concrete stores exercising all four guard branches. -/
theorem C8_delete_team_guard_witness :
    (delete_team none
      { teams := [{ id := 1, name := "platform", parent_team_id := none, team_type := "main" },
                  { id := 2, name := "payments", parent_team_id := some 1, team_type := "sub" }],
        users := [], assets := [], vulns := [], next_asset_id := 1, next_vuln_id := 1 } 1 =
      ({ teams := [{ id := 1, name := "platform", parent_team_id := none, team_type := "main" },
                   { id := 2, name := "payments", parent_team_id := some 1, team_type := "sub" }],
         users := [], assets := [], vulns := [], next_asset_id := 1, next_vuln_id := 1 },
       .error ("Cannot delete team with sub-teams: " ++
         String.intercalate ", "
           ((get_sub_teams
             { teams := [{ id := 1, name := "platform", parent_team_id := none, team_type := "main" },
                         { id := 2, name := "payments", parent_team_id := some 1, team_type := "sub" }],
               users := [], assets := [], vulns := [], next_asset_id := 1,
               next_vuln_id := 1 } 1).map Team.name) ++
         ". Delete sub-teams first.")) ∧
     ({ id := 2, name := "payments", parent_team_id := some 1, team_type := "sub" } : Team).name ∈
       ((get_sub_teams
         { teams := [{ id := 1, name := "platform", parent_team_id := none, team_type := "main" },
                     { id := 2, name := "payments", parent_team_id := some 1, team_type := "sub" }],
           users := [], assets := [], vulns := [], next_asset_id := 1,
           next_vuln_id := 1 } 1).map Team.name) ∧
     (delete_team none
       { teams := [{ id := 1, name := "platform", parent_team_id := none, team_type := "main" },
                   { id := 2, name := "payments", parent_team_id := some 1, team_type := "sub" }],
         users := [], assets := [], vulns := [], next_asset_id := 1,
         next_vuln_id := 1 } 1).1.teams.find? (fun x => x.id == 1) =
       some { id := 1, name := "platform", parent_team_id := none, team_type := "main" }) ∧
    delete_team none
      { teams := [{ id := 3, name := "infra", parent_team_id := none, team_type := "main" }],
        users := [],
        assets := [{ id := 1, name := "srv", ip_address := "10.0.0.1",
                     os_version := "linux", public_facing := false, team_id := 3,
                     owner_id := none, last_reviewed_date := none,
                     environment := "dev", criticality := "medium", updated_at := none }],
        vulns := [], next_asset_id := 2, next_vuln_id := 1 } 3 =
      ({ teams := [{ id := 3, name := "infra", parent_team_id := none, team_type := "main" }],
         users := [],
         assets := [{ id := 1, name := "srv", ip_address := "10.0.0.1",
                      os_version := "linux", public_facing := false, team_id := 3,
                      owner_id := none, last_reviewed_date := none,
                      environment := "dev", criticality := "medium", updated_at := none }],
         vulns := [], next_asset_id := 2, next_vuln_id := 1 },
       .error ("Cannot delete team with " ++
         toString (teamAssetCount
           { teams := [{ id := 3, name := "infra", parent_team_id := none, team_type := "main" }],
             users := [],
             assets := [{ id := 1, name := "srv", ip_address := "10.0.0.1",
                          os_version := "linux", public_facing := false, team_id := 3,
                          owner_id := none, last_reviewed_date := none,
                          environment := "dev", criticality := "medium", updated_at := none }],
             vulns := [], next_asset_id := 2, next_vuln_id := 1 } 3) ++
         " assets. Reassign assets first.")) ∧
    delete_team none
      { teams := [{ id := 5, name := "sec", parent_team_id := none, team_type := "main" }],
        users := [{ id := 7, team_id := some 5, is_admin := false }],
        assets := [], vulns := [], next_asset_id := 1, next_vuln_id := 1 } 5 =
      ({ teams := [{ id := 5, name := "sec", parent_team_id := none, team_type := "main" }],
         users := [{ id := 7, team_id := some 5, is_admin := false }],
         assets := [], vulns := [], next_asset_id := 1, next_vuln_id := 1 },
       .error ("Cannot delete team with " ++
         toString (teamUserCount
           { teams := [{ id := 5, name := "sec", parent_team_id := none, team_type := "main" }],
             users := [{ id := 7, team_id := some 5, is_admin := false }],
             assets := [], vulns := [], next_asset_id := 1, next_vuln_id := 1 } 5) ++
         " users assigned. Reassign users first.")) ∧
    (delete_team (some "disk full")
      { teams := [{ id := 6, name := "empty", parent_team_id := none, team_type := "main" }],
        users := [], assets := [], vulns := [], next_asset_id := 1, next_vuln_id := 1 } 6 =
      ({ teams := [{ id := 6, name := "empty", parent_team_id := none, team_type := "main" }],
         users := [], assets := [], vulns := [], next_asset_id := 1, next_vuln_id := 1 },
       .error ("Database error during deletion: " ++ "disk full")) ∧
     (delete_team (some "disk full")
       { teams := [{ id := 6, name := "empty", parent_team_id := none, team_type := "main" }],
         users := [], assets := [], vulns := [], next_asset_id := 1,
         next_vuln_id := 1 } 6).1.teams.find? (fun x => x.id == 6) =
       some { id := 6, name := "empty", parent_team_id := none, team_type := "main" }) :=
  C8_delete_team_guard
    { teams := [{ id := 1, name := "platform", parent_team_id := none, team_type := "main" },
                { id := 2, name := "payments", parent_team_id := some 1, team_type := "sub" }],
      users := [], assets := [], vulns := [], next_asset_id := 1, next_vuln_id := 1 }
    1 { id := 1, name := "platform", parent_team_id := none, team_type := "main" }
    (by decide)
    { id := 2, name := "payments", parent_team_id := some 1, team_type := "sub" }
    (by decide) none
    { teams := [{ id := 3, name := "infra", parent_team_id := none, team_type := "main" }],
      users := [],
      assets := [{ id := 1, name := "srv", ip_address := "10.0.0.1",
                   os_version := "linux", public_facing := false, team_id := 3,
                   owner_id := none, last_reviewed_date := none,
                   environment := "dev", criticality := "medium", updated_at := none }],
      vulns := [], next_asset_id := 2, next_vuln_id := 1 }
    3 { id := 3, name := "infra", parent_team_id := none, team_type := "main" }
    (by decide) (by decide) (by decide) none
    { teams := [{ id := 5, name := "sec", parent_team_id := none, team_type := "main" }],
      users := [{ id := 7, team_id := some 5, is_admin := false }],
      assets := [], vulns := [], next_asset_id := 1, next_vuln_id := 1 }
    5 { id := 5, name := "sec", parent_team_id := none, team_type := "main" }
    (by decide) (by decide) (by decide) (by decide) none
    { teams := [{ id := 6, name := "empty", parent_team_id := none, team_type := "main" }],
      users := [], assets := [], vulns := [], next_asset_id := 1, next_vuln_id := 1 }
    6 { id := 6, name := "empty", parent_team_id := none, team_type := "main" }
    (by decide) (by decide) (by decide) (by decide) "disk full"

/-- C9: with the fixed 60/45 thresholds, a null review date classifies as
never_reviewed, 50 days ago as warning, 70 days ago as overdue; a team's
compliance rate is `(total - overdue)/total * 100` with an asset-free team
rated 100; a team is flagged exactly when its rate is below 80; and a team
of 4 assets with 1 overdue has rate 75 and is flagged. -/
theorem C9_review_compliance_classification_and_rate
    (now d50 d70 : Int) (h50 : now - d50 = 50) (h70 : now - d70 = 70)
    (cutoff : Int) (db : DB) (team : Team) :
    classifyReview now none = "never_reviewed" ∧
    classifyReview now (some d50) = "warning" ∧
    classifyReview now (some d70) = "overdue" ∧
    ((teamComplianceEntry cutoff db team).total_assets > 0 →
      (teamComplianceEntry cutoff db team).compliance_rate =
        (((teamComplianceEntry cutoff db team).total_assets : ℚ) -
          ((teamComplianceEntry cutoff db team).overdue_assets : ℚ)) /
          ((teamComplianceEntry cutoff db team).total_assets : ℚ) * 100) ∧
    ((teamComplianceEntry cutoff db team).total_assets = 0 →
      (teamComplianceEntry cutoff db team).compliance_rate = 100) ∧
    ((teamComplianceEntry cutoff db team).team_status = "flagged" ↔
      (teamComplianceEntry cutoff db team).compliance_rate < 80) ∧
    ((teamComplianceEntry cutoff db team).total_assets = 4 →
      (teamComplianceEntry cutoff db team).overdue_assets = 1 →
      (teamComplianceEntry cutoff db team).compliance_rate = 75 ∧
      (teamComplianceEntry cutoff db team).team_status = "flagged") := by
  have hwarn : classifyReview now (some d50) = "warning" := by
    simp only [classifyReview]
    rw [h50]
    norm_num
  have hover : classifyReview now (some d70) = "overdue" := by
    simp only [classifyReview]
    rw [h70]
    norm_num
  unfold teamComplianceEntry
  dsimp only
  generalize ((db.assets.filter (fun a => a.team_id == team.id)).filter
      (fun a => isOverdueForReview cutoff a.last_reviewed_date)).length = K
  generalize (db.assets.filter (fun a => a.team_id == team.id)).length = N
  refine ⟨rfl, hwarn, hover, ?_, ?_, ?_, ?_⟩
  · intro h
    rw [if_pos h]
  · intro h
    rw [if_neg (by omega)]
  · by_cases hge : (if N > 0 then ((N : ℚ) - (K : ℚ)) / (N : ℚ) * 100 else 100) ≥ 80
    · rw [if_pos hge]
      constructor
      · intro hcontra
        exact absurd hcontra (by decide)
      · intro hlt
        linarith
    · rw [if_neg hge]
      constructor
      · intro _
        linarith [not_le.mp hge]
      · intro _
        rfl
  · intro h4 h1
    subst h4
    subst h1
    norm_num

/-- C9 witness: the classification and rate facts at concrete dates and a
concrete 4-asset team with exactly one overdue asset. -/
theorem C9_review_compliance_witness :
    classifyReview 100 none = "never_reviewed" ∧
    classifyReview 100 (some 50) = "warning" ∧
    classifyReview 100 (some 30) = "overdue" ∧
    (teamComplianceEntry 40
      { teams := [{ id := 1, name := "t", parent_team_id := none, team_type := "main" }],
        users := [],
        assets := [{ id := 1, name := "a1", ip_address := "10.0.0.1",
                     os_version := "l", public_facing := false, team_id := 1,
                     owner_id := none, last_reviewed_date := some 90,
                     environment := "dev", criticality := "medium", updated_at := none },
                   { id := 2, name := "a2", ip_address := "10.0.0.2",
                     os_version := "l", public_facing := false, team_id := 1,
                     owner_id := none, last_reviewed_date := some 90,
                     environment := "dev", criticality := "medium", updated_at := none },
                   { id := 3, name := "a3", ip_address := "10.0.0.3",
                     os_version := "l", public_facing := false, team_id := 1,
                     owner_id := none, last_reviewed_date := some 90,
                     environment := "dev", criticality := "medium", updated_at := none },
                   { id := 4, name := "a4", ip_address := "10.0.0.4",
                     os_version := "l", public_facing := false, team_id := 1,
                     owner_id := none, last_reviewed_date := some 10,
                     environment := "dev", criticality := "medium", updated_at := none }],
        vulns := [], next_asset_id := 5, next_vuln_id := 1 }
      { id := 1, name := "t", parent_team_id := none, team_type := "main" }).compliance_rate
      = 75 ∧
    (teamComplianceEntry 40
      { teams := [{ id := 1, name := "t", parent_team_id := none, team_type := "main" }],
        users := [],
        assets := [{ id := 1, name := "a1", ip_address := "10.0.0.1",
                     os_version := "l", public_facing := false, team_id := 1,
                     owner_id := none, last_reviewed_date := some 90,
                     environment := "dev", criticality := "medium", updated_at := none },
                   { id := 2, name := "a2", ip_address := "10.0.0.2",
                     os_version := "l", public_facing := false, team_id := 1,
                     owner_id := none, last_reviewed_date := some 90,
                     environment := "dev", criticality := "medium", updated_at := none },
                   { id := 3, name := "a3", ip_address := "10.0.0.3",
                     os_version := "l", public_facing := false, team_id := 1,
                     owner_id := none, last_reviewed_date := some 90,
                     environment := "dev", criticality := "medium", updated_at := none },
                   { id := 4, name := "a4", ip_address := "10.0.0.4",
                     os_version := "l", public_facing := false, team_id := 1,
                     owner_id := none, last_reviewed_date := some 10,
                     environment := "dev", criticality := "medium", updated_at := none }],
        vulns := [], next_asset_id := 5, next_vuln_id := 1 }
      { id := 1, name := "t", parent_team_id := none, team_type := "main" }).team_status
      = "flagged" := by
  have h := C9_review_compliance_classification_and_rate 100 50 30 rfl rfl 40
    { teams := [{ id := 1, name := "t", parent_team_id := none, team_type := "main" }],
      users := [],
      assets := [{ id := 1, name := "a1", ip_address := "10.0.0.1",
                   os_version := "l", public_facing := false, team_id := 1,
                   owner_id := none, last_reviewed_date := some 90,
                   environment := "dev", criticality := "medium", updated_at := none },
                 { id := 2, name := "a2", ip_address := "10.0.0.2",
                   os_version := "l", public_facing := false, team_id := 1,
                   owner_id := none, last_reviewed_date := some 90,
                   environment := "dev", criticality := "medium", updated_at := none },
                 { id := 3, name := "a3", ip_address := "10.0.0.3",
                   os_version := "l", public_facing := false, team_id := 1,
                   owner_id := none, last_reviewed_date := some 90,
                   environment := "dev", criticality := "medium", updated_at := none },
                 { id := 4, name := "a4", ip_address := "10.0.0.4",
                   os_version := "l", public_facing := false, team_id := 1,
                   owner_id := none, last_reviewed_date := some 10,
                   environment := "dev", criticality := "medium", updated_at := none }],
      vulns := [], next_asset_id := 5, next_vuln_id := 1 }
    { id := 1, name := "t", parent_team_id := none, team_type := "main" }
  have hconcrete := h.2.2.2.2.2.2 (by decide) (by decide)
  exact ⟨h.1, h.2.1, h.2.2.1, hconcrete.1, hconcrete.2⟩

/-- C10: an asset with null last_reviewed_date satisfies the overdue
predicate, is counted in its team's overdue_assets total (pushing the
team's compliance rate strictly below 100), and appears in the
overdue-assets listing, whose count equals the length of its asset list. -/
theorem C10_null_review_counted_overdue
    (cutoff : Int) (db : DB) (team : Team) (a : Asset)
    (ha : a ∈ db.assets) (hnull : a.last_reviewed_date = none)
    (hteam : a.team_id = team.id)
    (thr now : Int) :
    isOverdueForReview cutoff a.last_reviewed_date = true ∧
    a ∈ (db.assets.filter (fun x => x.team_id == team.id)).filter
        (fun x => isOverdueForReview cutoff x.last_reviewed_date) ∧
    1 ≤ (teamComplianceEntry cutoff db team).overdue_assets ∧
    (teamComplianceEntry cutoff db team).compliance_rate < 100 ∧
    a ∈ (get_overdue_assets thr now true none db).assets ∧
    (get_overdue_assets thr now true none db).overdue_count =
      (get_overdue_assets thr now true none db).assets.length := by
  have hpred : isOverdueForReview cutoff a.last_reviewed_date = true := by
    rw [hnull]
    rfl
  have hmem1 : a ∈ db.assets.filter (fun x => x.team_id == team.id) :=
    List.mem_filter.mpr ⟨ha, by simp [hteam]⟩
  have hmem2 : a ∈ (db.assets.filter (fun x => x.team_id == team.id)).filter
      (fun x => isOverdueForReview cutoff x.last_reviewed_date) :=
    List.mem_filter.mpr ⟨hmem1, hpred⟩
  have hK1 : 1 ≤ ((db.assets.filter (fun x => x.team_id == team.id)).filter
      (fun x => isOverdueForReview cutoff x.last_reviewed_date)).length :=
    List.length_pos.mpr (List.ne_nil_of_mem hmem2)
  have hN1 : 1 ≤ (db.assets.filter (fun x => x.team_id == team.id)).length :=
    List.length_pos.mpr (List.ne_nil_of_mem hmem1)
  have hKN : ((db.assets.filter (fun x => x.team_id == team.id)).filter
      (fun x => isOverdueForReview cutoff x.last_reviewed_date)).length ≤
      (db.assets.filter (fun x => x.team_id == team.id)).length :=
    List.length_filter_le _ _
  refine ⟨hpred, hmem2, hK1, ?_, ?_, ?_⟩
  · unfold teamComplianceEntry
    dsimp only
    rw [if_pos (by omega)]
    set N := (db.assets.filter (fun x => x.team_id == team.id)).length with hN
    set K := ((db.assets.filter (fun x => x.team_id == team.id)).filter
      (fun x => isOverdueForReview cutoff x.last_reviewed_date)).length with hKdef
    have hNq : (1 : ℚ) ≤ (N : ℚ) := by exact_mod_cast hN1
    have hKq : (1 : ℚ) ≤ (K : ℚ) := by exact_mod_cast hK1
    have hdiv : ((N : ℚ) - (K : ℚ)) / (N : ℚ) < 1 := by
      rw [div_lt_one (by linarith)]
      linarith
    nlinarith
  · unfold get_overdue_assets
    dsimp only
    exact List.mem_filter.mpr ⟨ha, by rw [hnull]; rfl⟩
  · rfl

/-- C10 witness: a concrete never-reviewed asset is counted overdue both
in the team compliance row and in the overdue-assets listing. -/
theorem C10_null_review_counted_overdue_witness :
    isOverdueForReview 40
      ({ id := 1, name := "a1", ip_address := "10.0.0.1",
         os_version := "l", public_facing := false, team_id := 1,
         owner_id := none, last_reviewed_date := none,
         environment := "dev", criticality := "medium",
         updated_at := none } : Asset).last_reviewed_date = true ∧
    1 ≤ (teamComplianceEntry 40
      { teams := [{ id := 1, name := "t", parent_team_id := none, team_type := "main" }],
        users := [],
        assets := [{ id := 1, name := "a1", ip_address := "10.0.0.1",
                     os_version := "l", public_facing := false, team_id := 1,
                     owner_id := none, last_reviewed_date := none,
                     environment := "dev", criticality := "medium", updated_at := none }],
        vulns := [], next_asset_id := 2, next_vuln_id := 1 }
      { id := 1, name := "t", parent_team_id := none, team_type := "main" }).overdue_assets ∧
    (teamComplianceEntry 40
      { teams := [{ id := 1, name := "t", parent_team_id := none, team_type := "main" }],
        users := [],
        assets := [{ id := 1, name := "a1", ip_address := "10.0.0.1",
                     os_version := "l", public_facing := false, team_id := 1,
                     owner_id := none, last_reviewed_date := none,
                     environment := "dev", criticality := "medium", updated_at := none }],
        vulns := [], next_asset_id := 2, next_vuln_id := 1 }
      { id := 1, name := "t", parent_team_id := none, team_type := "main" }).compliance_rate
      < 100 ∧
    ({ id := 1, name := "a1", ip_address := "10.0.0.1",
       os_version := "l", public_facing := false, team_id := 1,
       owner_id := none, last_reviewed_date := none,
       environment := "dev", criticality := "medium", updated_at := none } : Asset) ∈
      (get_overdue_assets 60 100 true none
        { teams := [{ id := 1, name := "t", parent_team_id := none, team_type := "main" }],
          users := [],
          assets := [{ id := 1, name := "a1", ip_address := "10.0.0.1",
                       os_version := "l", public_facing := false, team_id := 1,
                       owner_id := none, last_reviewed_date := none,
                       environment := "dev", criticality := "medium", updated_at := none }],
          vulns := [], next_asset_id := 2, next_vuln_id := 1 }).assets ∧
    (get_overdue_assets 60 100 true none
      { teams := [{ id := 1, name := "t", parent_team_id := none, team_type := "main" }],
        users := [],
        assets := [{ id := 1, name := "a1", ip_address := "10.0.0.1",
                     os_version := "l", public_facing := false, team_id := 1,
                     owner_id := none, last_reviewed_date := none,
                     environment := "dev", criticality := "medium", updated_at := none }],
        vulns := [], next_asset_id := 2, next_vuln_id := 1 }).overdue_count =
      (get_overdue_assets 60 100 true none
        { teams := [{ id := 1, name := "t", parent_team_id := none, team_type := "main" }],
          users := [],
          assets := [{ id := 1, name := "a1", ip_address := "10.0.0.1",
                       os_version := "l", public_facing := false, team_id := 1,
                       owner_id := none, last_reviewed_date := none,
                       environment := "dev", criticality := "medium", updated_at := none }],
          vulns := [], next_asset_id := 2, next_vuln_id := 1 }).assets.length := by
  have h := C10_null_review_counted_overdue 40
    { teams := [{ id := 1, name := "t", parent_team_id := none, team_type := "main" }],
      users := [],
      assets := [{ id := 1, name := "a1", ip_address := "10.0.0.1",
                   os_version := "l", public_facing := false, team_id := 1,
                   owner_id := none, last_reviewed_date := none,
                   environment := "dev", criticality := "medium", updated_at := none }],
      vulns := [], next_asset_id := 2, next_vuln_id := 1 }
    { id := 1, name := "t", parent_team_id := none, team_type := "main" }
    { id := 1, name := "a1", ip_address := "10.0.0.1",
      os_version := "l", public_facing := false, team_id := 1,
      owner_id := none, last_reviewed_date := none,
      environment := "dev", criticality := "medium", updated_at := none }
    (by decide) rfl rfl 60 100
  exact ⟨h.1, h.2.2.1, h.2.2.2.1, h.2.2.2.2.1, h.2.2.2.2.2⟩

end CatProj
